import Mathlib

/-!
Verification development for the `akavas-public` repository.

The repository contains two small Python command-line tools:

* `check_cidr_coverage.py` — reads two lists of CIDR strings and reports,
  for each "ER" route, whether it is covered by some "MS" route.
* `elastic_flow.py` — builds an Elasticsearch query payload from a list of
  subnets and (unless dry-run) submits it over HTTP.

This file gives a shallow embedding of the program logic.  Pure Python
functions become Lean functions; Python exceptions become `Except PyErr`;
the process side effects of `elastic_flow.main` (exit codes, whether the
HTTP call happened, what was printed) are captured in an `Outcome` record,
with the interactive/filesystem environment passed in as a `World` record.

Machine-level caveats of the model, noted where they apply:
* The `ipaddress` standard-library parsing is modelled for the textual
  IPv4 and IPv6 forms (dotted quad with optional prefix length, netmask or
  hostmask; hex groups with one optional `::` and an optional embedded
  IPv4 tail).  Zone identifiers (`%eth0`) are not modelled and are treated
  as unparseable.
* Python `str.strip` removes all Unicode whitespace; the model removes the
  ASCII whitespace characters, which is exhaustive for the inputs the
  claims are about.
-/

/-- Python exception kinds observable in the modelled code paths. -/
inductive PyErr where
  | valueError
  | typeError
  | zeroDivisionError
deriving DecidableEq, Repr

deriving instance DecidableEq for Except

namespace Ipaddr

/-- Decimal digit test, as Python `str.isdigit` restricted to ASCII
(the library checks `isascii() and isdigit()`). -/
def isAsciiDigit (c : Char) : Bool := '0' ≤ c && c ≤ '9'

/-- Hexadecimal digit test, as the library's `_HEX_DIGITS` set. -/
def isHexDigitChar (c : Char) : Bool :=
  isAsciiDigit c || ('a' ≤ c && c ≤ 'f') || ('A' ≤ c && c ≤ 'F')

def digitVal (c : Char) : Nat := c.toNat - '0'.toNat

def hexVal (c : Char) : Nat :=
  if isAsciiDigit c then digitVal c
  else if 'a' ≤ c && c ≤ 'f' then c.toNat - 'a'.toNat + 10
  else c.toNat - 'A'.toNat + 10

/-- Value of a string of decimal digits, as Python `int(s, 10)`
(validity of the digits is checked by the callers). -/
def decToNat (cs : List Char) : Nat := cs.foldl (fun a c => a * 10 + digitVal c) 0

/-- Value of a string of hex digits, as Python `int(s, 16)`. -/
def hexToNat (cs : List Char) : Nat := cs.foldl (fun a c => a * 16 + hexVal c) 0

/-- Python `str.split(sep)` for a one-character separator: always returns at
least one (possibly empty) piece. -/
def splitOnChar (sep : Char) : List Char → List (List Char)
  | [] => [[]]
  | c :: rest =>
    let r := splitOnChar sep rest
    if c = sep then [] :: r
    else
      match r with
      | [] => [[c]]
      | g :: gs => (c :: g) :: gs

/-- `IPv4Address._parse_octet`: ASCII digits only, at most 3 characters,
no leading zeros, value at most 255. -/
def parse_octet (cs : List Char) : Option Nat :=
  if cs.isEmpty then none
  else if !cs.all isAsciiDigit then none
  else if cs.length > 3 then none
  else if cs ≠ ['0'] && cs.head? = some '0' then none
  else if decToNat cs > 255 then none
  else some (decToNat cs)

/-- `IPv4Address._ip_int_from_string`: exactly four octets joined by dots. -/
def v4_ip_int_from_string (cs : List Char) : Option Nat := do
  let octets := splitOnChar '.' cs
  if octets.length ≠ 4 then none
  else do
    let vals ← octets.mapM parse_octet
    some (vals.foldl (fun a v => a * 256 + v) 0)

/-- `_prefix_from_prefix_string` for IPv4: digits only, value at most 32. -/
def v4_plen_from_string (cs : List Char) : Option Nat :=
  if cs.isEmpty || !cs.all isAsciiDigit then none
  else if decToNat cs ≤ 32 then some (decToNat cs) else none

/-- `_prefix_from_ip_int` on a `w`-bit integer: the prefix length if the
integer is a run of ones followed by zeros, else `none`. -/
def plen_from_mask_int (w : Nat) (m : Nat) : Option Nat :=
  (List.range (w + 1)).find? (fun p => m = 2 ^ w - 2 ^ (w - p))

/-- `IPv4Network._make_netmask` on a string argument: prefix-length form
first, then dotted netmask form, then dotted hostmask form (the hostmask
attempt works on the bitwise complement, here written as subtraction from
the all-ones value). -/
def v4_make_netmask (cs : List Char) : Option Nat :=
  match v4_plen_from_string cs with
  | some p => some p
  | none =>
    match v4_ip_int_from_string cs with
    | none => none
    | some m =>
      match plen_from_mask_int 32 m with
      | some p => some p
      | none => plen_from_mask_int 32 ((2 ^ 32 - 1) - m)

/-- A parsed `ip_network` value: address family, network (base) address as
an integer with the host bits cleared, and prefix length. -/
structure IPNet where
  version : Nat
  network_address : Nat
  plen : Nat
deriving DecidableEq, Repr

def IPNet.max_plen (n : IPNet) : Nat := if n.version = 4 then 32 else 128

/-- `broadcast_address`: network address with the host bits set.  Because
`network_address` has its host bits cleared, the bitwise-or of the source
is an addition here. -/
def IPNet.broadcast_address (n : IPNet) : Nat :=
  n.network_address + (2 ^ (n.max_plen - n.plen) - 1)

/-- Clear the low `w - p` bits of `ip` (bitwise-and with the netmask,
written arithmetically). -/
def maskBits (w p : Nat) (ip : Nat) : Nat :=
  ip / 2 ^ (w - p) * 2 ^ (w - p)

/-- `IPv4Network(s, strict=False)`: split an optional `/netmask` part (at
most one slash), parse the address and the mask, and clear the host bits
(`strict=False` masks instead of raising). -/
def IPv4Network? (cs : List Char) : Option IPNet := do
  let addr := splitOnChar '/' cs
  if addr.length > 2 then none
  else do
    let ip ← v4_ip_int_from_string (addr.headD [])
    let p ← match addr with
            | [_, mask] => v4_make_netmask mask
            | _ => some 32
    some { version := 4, network_address := maskBits 32 p ip, plen := p }

/-- `IPv6Address._parse_hextet`: hex digits only, 1 to 4 characters. -/
def parse_hextet (cs : List Char) : Option Nat :=
  if !cs.all isHexDigitChar then none
  else if cs.length > 4 then none
  else if cs.isEmpty then none
  else some (hexToNat cs)

/-- Lowercase hex rendering of a number, as Python `'%x' % n` (used when an
embedded IPv4 tail is rewritten into two hextets). -/
def hexChars (n : Nat) : List Char := Nat.toDigits 16 n

/-- Indices of empty groups strictly inside the part list (candidates for
the position of a `::`). -/
def innerEmptyIdxs (parts : List (List Char)) : List Nat :=
  (List.range parts.length).filter
    (fun i => decide (0 < i) && decide (i + 1 < parts.length) && parts.getD i [] = ([] : List Char))

/-- Assemble the 128-bit value from `hi` leading groups, a zero-filled gap,
and `lo` trailing groups. -/
def v6_assemble (parts : List (List Char)) (hi lo : Nat) : Option Nat := do
  let hiVals ← (parts.take hi).mapM parse_hextet
  let loVals ← (parts.drop (parts.length - lo)).mapM parse_hextet
  let skipped := 8 - (hi + lo)
  some ((hiVals.foldl (fun a v => a * 65536 + v) 0) * 65536 ^ (skipped + lo)
        + loVals.foldl (fun a v => a * 65536 + v) 0)

/-- `IPv6Address._ip_int_from_string`: split on `:`, rewrite an embedded
IPv4 tail into two hextets, locate at most one `::` gap, check the
leading/trailing colon rules and the group count, and assemble. -/
def v6_ip_int_from_string (cs : List Char) : Option Nat := do
  let parts := splitOnChar ':' cs
  if parts.length < 3 then none
  else do
    let parts ←
      if (parts.getLastD []).contains '.' then
        match v4_ip_int_from_string (parts.getLastD []) with
        | none => none
        | some v => some (parts.dropLast ++ [hexChars (v / 65536), hexChars (v % 65536)])
      else some parts
    if parts.length > 9 then none
    else
      match innerEmptyIdxs parts with
      | [] =>
        if parts.length ≠ 8 then none
        else if parts.headD [] = ([] : List Char) then none
        else if parts.getLastD [] = ([] : List Char) then none
        else v6_assemble parts 8 0
      | [i] => do
        let hi0 := i
        let lo0 := parts.length - i - 1
        let hi ← if parts.headD [] = ([] : List Char) then
                   if hi0 - 1 ≠ 0 then none else some 0
                 else some hi0
        let lo ← if parts.getLastD [] = ([] : List Char) then
                   if lo0 - 1 ≠ 0 then none else some 0
                 else some lo0
        if 8 - (hi + lo) < 1 then none
        else v6_assemble parts hi lo
      | _ => none

/-- `IPv6Network(s, strict=False)`: IPv6 netmasks are accepted only in
prefix-length form (digits, at most 128). -/
def IPv6Network? (cs : List Char) : Option IPNet := do
  let addr := splitOnChar '/' cs
  if addr.length > 2 then none
  else do
    let ip ← v6_ip_int_from_string (addr.headD [])
    let p ← match addr with
            | [_, mask] =>
                if !mask.isEmpty && mask.all isAsciiDigit && decToNat mask ≤ 128
                then some (decToNat mask) else none
            | _ => some 128
    some { version := 6, network_address := maskBits 128 p ip, plen := p }

/-- `ipaddress.ip_network(s, strict=False)` on a string: try IPv4, then
IPv6; `none` models the `ValueError` raised when both fail. -/
def ip_network_chars? (cs : List Char) : Option IPNet :=
  match IPv4Network? cs with
  | some n => some n
  | none => IPv6Network? cs

def ip_network? (s : String) : Option IPNet := ip_network_chars? s.data

/-- `_BaseNetwork._is_subnet_of(a, b)` (used by `a.subnet_of(b)`): raises
`TypeError` when the address families differ, otherwise compares the
numeric address bounds. -/
def subnet_of (a b : IPNet) : Except PyErr Bool :=
  if a.version = b.version then
    .ok (decide (b.network_address ≤ a.network_address)
         && decide (a.broadcast_address ≤ b.broadcast_address))
  else .error .typeError

end Ipaddr

namespace CheckCidr

open Ipaddr

/-- Python whitespace characters removed by `str.strip()` (ASCII part). -/
def isPySpace (c : Char) : Bool :=
  c = ' ' || c = '\t' || c = '\n' || c = '\r' || c = '\x0b' || c = '\x0c'

/-- Python `str.strip()`. -/
def py_strip (cs : List Char) : List Char :=
  ((cs.dropWhile isPySpace).reverse.dropWhile isPySpace).reverse

/-- `is_subnet_of(subnet, supernet)` from `check_cidr_coverage.py`: parse
both strings (a `ValueError` from either parse is caught and yields
`False`) and compare the numeric bounds; comparing addresses of different
families raises an uncaught `TypeError`. -/
def is_subnet_of (subnet supernet : String) : Except PyErr Bool :=
  match ip_network? subnet with
  | none => .ok false
  | some subnet_net =>
    match ip_network? supernet with
    | none => .ok false
    | some supernet_net =>
      if subnet_net.version = supernet_net.version then
        .ok (decide (supernet_net.network_address ≤ subnet_net.network_address)
             && decide (subnet_net.broadcast_address ≤ supernet_net.broadcast_address))
      else .error .typeError

/-- The loop body of `is_network_covered`: a covering entry that fails to
parse is skipped (`ValueError` caught), a parsed one is compared with
`subnet_of` (whose `TypeError` is not caught and aborts), and the first
match is returned together with `True`.  On a Python 3.7+ runtime the
comparison is `target.subnet_of(covering) or target == covering`; the 3.6
compatibility branch computes the same relation from the same strings. -/
def is_network_covered_loop (target : IPNet) : List String → Except PyErr (Bool × Option String)
  | [] => .ok (false, none)
  | c :: rest =>
    match ip_network? c with
    | none => is_network_covered_loop target rest
    | some covering =>
      match subnet_of target covering with
      | .error e => .error e
      | .ok b =>
        if b || decide (target = covering) then .ok (true, some c)
        else is_network_covered_loop target rest

/-- `is_network_covered(target_network, covering_networks)`: the target is
parsed outside any `try`, so a malformed target raises `ValueError`. -/
def is_network_covered (target_network : String) (covering_networks : List String) :
    Except PyErr (Bool × Option String) :=
  match ip_network? target_network with
  | none => .error .valueError
  | some target => is_network_covered_loop target covering_networks

/-- The per-line body of the loop in `read_cidrs_from_file`: strip the
line, skip it when empty or starting with a comma, take the stripped text
after the last `→` when one is present, and keep it when it parses as a
network (an unparseable candidate is only reported and dropped). -/
def read_line_step (cidrs : List String) (rawLine : String) : List String :=
  let line := py_strip rawLine.data
  if line ≠ [] && line.head? ≠ some ',' then
    let parts := if line.contains '→' then splitOnChar '→' line else [line]
    let cidr_part := py_strip (parts.getLastD [])
    if cidr_part ≠ [] then
      if (ip_network_chars? cidr_part).isSome then cidrs ++ [String.mk cidr_part]
      else cidrs
    else cidrs
  else cidrs

/-- `read_cidrs_from_file`: the file is modelled as `none` when missing
(the `FileNotFoundError` handler reports it and the empty accumulator is
returned) and as its decoded list of lines otherwise (the `utf-8-sig`
decoding has already removed a byte-order mark). -/
def read_cidrs_from_file (file : Option (List String)) : List String :=
  match file with
  | none => []
  | some lines => lines.foldl read_line_step []

/-- Summary numbers of the log produced by `write_log_file`; the textual
formatting around them is not modelled, and `percentage` holds the exact
quotient that the `:.1f` format specifier would render. -/
structure LogSummary where
  total_er : Nat
  covered : Nat
  uncovered : Nat
  percentage : Rat
deriving DecidableEq, Repr

/-- The expression `len(covered_routes)/len(er_routes)*100` on line 116 of
`check_cidr_coverage.py`: a true division that raises
`ZeroDivisionError` when the ER list is empty. -/
def coverage_percentage (covered total : Nat) : Except PyErr Rat :=
  if total = 0 then .error .zeroDivisionError
  else .ok ((covered : Rat) / (total : Rat) * 100)

/-- `write_log_file` reduced to its numeric content: the summary block
divides by the ER count unconditionally. -/
def write_log_file (ms_routes er_routes : List String)
    (covered_routes : List (String × Option String)) (uncovered_routes : List String) :
    Except PyErr LogSummary := do
  let _ := ms_routes
  let pct ← coverage_percentage covered_routes.length er_routes.length
  return { total_er := er_routes.length
           covered := covered_routes.length
           uncovered := uncovered_routes.length
           percentage := pct }

/-- The classification loop of `main`: each ER route is checked against
the MS routes and appended to the covered pairs or the uncovered list. -/
def classify_routes (er_routes ms_routes : List String) :
    Except PyErr (List (String × Option String) × List String) :=
  er_routes.foldlM
    (fun acc er_route => do
      let (is_covered, covering_route) ← is_network_covered er_route ms_routes
      if is_covered then return (acc.1 ++ [(er_route, covering_route)], acc.2)
      else return (acc.1, acc.2 ++ [er_route]))
    ([], [])

/-- Result of one run of the checker's `main`. -/
structure CheckResult where
  ms_routes : List String
  er_routes : List String
  covered : List (String × Option String)
  uncovered : List String
  summary : LogSummary
deriving DecidableEq, Repr

/-- `main` of `check_cidr_coverage.py` from the two input files (given as
`none` when missing, or the decoded lines): load both lists, classify the
ER routes, and write the log. -/
def cidr_main (ms_file er_file : Option (List String)) : Except PyErr CheckResult := do
  let ms_routes := read_cidrs_from_file ms_file
  let er_routes := read_cidrs_from_file er_file
  let (covered, uncovered) ← classify_routes er_routes ms_routes
  let summary ← write_log_file ms_routes er_routes covered uncovered
  return { ms_routes := ms_routes, er_routes := er_routes
           covered := covered, uncovered := uncovered, summary := summary }

end CheckCidr

namespace ElasticFlow

/-- Structured JSON value, the shape of the `build_payload` dictionary. -/
inductive Js where
  | str (s : String)
  | int (n : Int)
  | obj (fields : List (String × Js))
  | arr (elems : List Js)

/-- Field lookup in an object value. -/
def Js.get? (j : Js) (k : String) : Option Js :=
  match j with
  | .obj fields => fields.lookup k
  | _ => none

/-- Default of the `SRC_FIELD` environment lookup. -/
def SRC_FIELD : String := "source.ip"

/-- Default of the `DST_FIELD` environment lookup. -/
def DST_FIELD : String := "destination.ip"

/-- Python `sep.join(items)`. -/
def py_join (sep : String) : List String → String
  | [] => ""
  | [s] => s
  | s :: rest => s ++ sep ++ py_join sep rest

/-- `build_payload(subnets, days, agg_size)`: the literal dictionary built
by the source, with the subnets quoted and OR-joined and the day-aligned
time range. -/
def build_payload (subnets : List String) (days : Int) (agg_size : Int) : Js :=
  let subnet_query_string := py_join " OR " (subnets.map (fun subnet => "\"" ++ subnet ++ "\""))
  .obj [
    ("size", .int 0),
    ("query", .obj [
      ("bool", .obj [
        ("filter", .arr [
          .obj [("range", .obj [("@timestamp", .obj [
            ("gte", .str ("now-" ++ toString days ++ "d/d")),
            ("lte", .str "now/d")])])],
          .obj [("query_string", .obj [
            ("default_field", .str SRC_FIELD),
            ("query", .str subnet_query_string)])]])])]),
    ("aggs", .obj [
      ("unique_destinations", .obj [
        ("terms", .obj [("field", .str DST_FIELD), ("size", .int agg_size)])])])]

/-- `load_subnets`: first cell of every non-empty CSV row, stripped.  The
CSV rows stand in for the parsed file contents. -/
def load_subnets (rows : List (List String)) : List String :=
  rows.foldl
    (fun subnets row =>
      match row with
      | [] => subnets
      | cell :: _ => subnets ++ [String.mk (CheckCidr.py_strip cell.data)])
    []

/-- `confirm(prompt)`: `none` is an `EOFError` on `input` (answer `False`);
otherwise the stripped, lowercased reply must be `y` or `yes`. -/
def confirm (reply : Option String) : Bool :=
  match reply with
  | none => false
  | some r =>
    let t := String.mk ((CheckCidr.py_strip r.data).map Char.toLower)
    t = "y" || t = "yes"

/-- Parsed command-line arguments of `elastic_flow.py` (defaults and
environment overrides are resolved by `argparse` before `main`'s checks
run, so they appear here as the final values). -/
structure Args where
  es_url : String
  index : String
  username : Option String
  password : Option String
  input : String
  output : String
  days : Int
  size : Int
  insecure : Bool
  allow_wildcard : Bool
  dry_run : Bool
  confirm : Bool

/-- Python truthiness of an optional string (`None` and `''` are falsy). -/
def pyTruthy : Option String → Bool
  | none => false
  | some s => s ≠ ""

/-- Result of the single HTTP round trip, as `main` distinguishes it. -/
inductive HttpResult where
  | reqError
  | badJson
  | ok (buckets : List (String × Int)) (writeOk : Bool)

/-- The environment a run of `main` interacts with. -/
structure World where
  getpassResult : String
  confirmReply : Option String
  inputFileRows : Option (List (List String))
  httpResult : HttpResult

/-- Observable outcome of a run of `main`: the process exit status,
whether the HTTP request was issued and with which payload, what payload a
dry run printed, and whether the wildcard confirmation prompt was shown. -/
structure Outcome where
  exitCode : Nat
  httpIssued : Bool
  httpPayload : Option Js
  printedPayload : Option Js
  confirmAsked : Bool

/-- The credential resolution of `main`: when a username is supplied but
no password, the password is read from the interactive prompt. -/
def effective_password (args : Args) (w : World) : Option String :=
  if pyTruthy args.username && !pyTruthy args.password then some w.getpassResult
  else args.password

/-- The tail of `main` after the confirmation gate: the request is issued
and each failure mode exits with status 1. -/
def http_phase (payload : Js) (w : World) (asked : Bool) : Outcome :=
  match w.httpResult with
  | .reqError =>
    { exitCode := 1, httpIssued := true, httpPayload := some payload
      printedPayload := none, confirmAsked := asked }
  | .badJson =>
    { exitCode := 1, httpIssued := true, httpPayload := some payload
      printedPayload := none, confirmAsked := asked }
  | .ok _ writeOk =>
    { exitCode := if writeOk then 0 else 1, httpIssued := true, httpPayload := some payload
      printedPayload := none, confirmAsked := asked }

/-- `main` of `elastic_flow.py` as a function from the parsed arguments
and the environment to the observable outcome, following the source order:
wildcard gate, credential check, input-file check, payload construction,
dry-run branch, confirmation gate, HTTP phase. -/
def elasticMain (args : Args) (w : World) : Outcome :=
  if args.index.data.contains '*' && !args.allow_wildcard then
    { exitCode := 2, httpIssued := false, httpPayload := none
      printedPayload := none, confirmAsked := false }
  else if !(pyTruthy args.username && pyTruthy (effective_password args w)) then
    { exitCode := 2, httpIssued := false, httpPayload := none
      printedPayload := none, confirmAsked := false }
  else
    match w.inputFileRows with
    | none =>
      { exitCode := 2, httpIssued := false, httpPayload := none
        printedPayload := none, confirmAsked := false }
    | some rows =>
      if args.dry_run then
        { exitCode := 0, httpIssued := false, httpPayload := none
          printedPayload := some (build_payload (load_subnets rows) args.days args.size)
          confirmAsked := false }
      else if args.index.data.contains '*' && !args.confirm then
        if confirm w.confirmReply then
          http_phase (build_payload (load_subnets rows) args.days args.size) w true
        else
          { exitCode := 0, httpIssued := false, httpPayload := none
            printedPayload := none, confirmAsked := true }
      else http_phase (build_payload (load_subnets rows) args.days args.size) w false

end ElasticFlow

namespace CheckCidr

open Ipaddr

/-- Written from the claim wording (C2): a covering-prefix string matches
candidate `tnet` when it is valid (parses) and its base (network) address
is at most the candidate's base while its last (broadcast) address is at
least the candidate's last. -/
def claim_covers (tnet : IPNet) (c : String) : Bool :=
  match ip_network? c with
  | none => false
  | some n =>
    decide (n.network_address ≤ tnet.network_address)
    && decide (tnet.broadcast_address ≤ n.broadcast_address)

/-- Written from the claim wording (C8): the loaded prefix a single input
line contributes, if any — strip, drop blank and comma-led lines, take the
stripped text after the last `→`, keep it only when it parses. -/
def load_line (rawLine : String) : Option String :=
  let line := py_strip rawLine.data
  if line ≠ [] && line.head? ≠ some ',' then
    let parts := if line.contains '→' then splitOnChar '→' line else [line]
    let cidr_part := py_strip (parts.getLastD [])
    if cidr_part ≠ [] then
      if (ip_network_chars? cidr_part).isSome then some (String.mk cidr_part)
      else none
    else none
  else none

theorem read_line_step_eq (cidrs : List String) (l : String) :
    read_line_step cidrs l = cidrs ++ (load_line l).toList := by
  unfold read_line_step load_line
  dsimp only
  split_ifs <;> simp

theorem foldl_read_line (lines : List String) (acc : List String) :
    lines.foldl read_line_step acc = acc ++ lines.filterMap load_line := by
  induction lines generalizing acc with
  | nil => simp
  | cons l rest ih =>
    rw [List.foldl_cons, read_line_step_eq, ih, List.filterMap_cons]
    cases load_line l <;> simp

theorem is_network_covered_loop_eq (tnet : IPNet) (covs : List String)
    (hsame : ∀ c ∈ covs, ∀ n, ip_network? c = some n → n.version = tnet.version) :
    is_network_covered_loop tnet covs =
      Except.ok (match covs.find? (claim_covers tnet) with
        | some c => (true, some c)
        | none => (false, none)) := by
  induction covs with
  | nil => rfl
  | cons c rest ih =>
    have hrest : ∀ c' ∈ rest, ∀ n, ip_network? c' = some n → n.version = tnet.version :=
      fun c' hc' => hsame c' (List.mem_cons_of_mem _ hc')
    cases hp : ip_network? c with
    | none =>
      have hcc : claim_covers tnet c = false := by simp [claim_covers, hp]
      simp only [is_network_covered_loop, hp, List.find?, hcc, ih hrest]
    | some n =>
      have hv : tnet.version = n.version := (hsame c (List.mem_cons_self _ _) n hp).symm
      have hsub : Ipaddr.subnet_of tnet n = Except.ok (claim_covers tnet c) := by
        simp [Ipaddr.subnet_of, hv, claim_covers, hp]
      cases hb : claim_covers tnet c with
      | true =>
        simp only [is_network_covered_loop, hp, hsub, hb, List.find?, Bool.true_or, if_true]
      | false =>
        have hne : decide (tnet = n) = false := by
          apply decide_eq_false
          intro he
          rw [claim_covers, hp] at hb
          subst he
          simp at hb
        simp [is_network_covered_loop, hp, hsub, hb, hne, List.find?, ih hrest]

/-- C1: the claim says the reported coverage percentage is
`covered/total*100` to one decimal and is a defined 0.0 when the total is
zero, with `write_log_file` completing on an empty ER list.  The code
divides by `len(er_routes)` unguarded: on zero ER routes `write_log_file`
raises `ZeroDivisionError`, while on a nonzero total the reported value is
the exact quotient `covered/total*100`. -/
theorem write_log_file_zero_division :
    write_log_file [] [] [] [] = Except.error PyErr.zeroDivisionError ∧
    write_log_file ["10.0.0.0/8"] ["10.1.2.0/24"] [("10.1.2.0/24", some "10.0.0.0/8")] [] =
      Except.ok { total_er := 1, covered := 1, uncovered := 0, percentage := 100 } ∧
    (∀ c u m r t, write_log_file m (r :: t) c u =
      Except.ok { total_er := (r :: t).length, covered := c.length, uncovered := u.length
                  percentage := (c.length : Rat) / ((r :: t).length : Rat) * 100 }) := by
  refine ⟨rfl, ?_, ?_⟩
  · norm_num [write_log_file, coverage_percentage]
  · intro c u m r t
    simp [write_log_file, coverage_percentage]

/-- C2 counterexample: with valid candidate `10.0.0.0/24` and covering
list `["::", "10.0.0.0/8"]`, the list contains a valid covering prefix of
the same family whose bounds enclose the candidate (`10.0.0.0/8`, as
`claim_covers` certifies), so the claim demands the result
`(True, "10.0.0.0/8")`; the code instead aborts with an uncaught
`TypeError` when it compares the candidate with the IPv6 entry `::`. -/
theorem is_network_covered_mixed_family_aborts :
    is_network_covered "10.0.0.0/24" ["::", "10.0.0.0/8"] = Except.error PyErr.typeError ∧
    ip_network? "10.0.0.0/24" = some ⟨4, 167772160, 24⟩ ∧
    claim_covers ⟨4, 167772160, 24⟩ "10.0.0.0/8" = true ∧
    (claim_covers ⟨4, 167772160, 24⟩ "::" = false ∧ (ip_network? "::").isSome = true) :=
  ⟨rfl, rfl, rfl, rfl, rfl⟩

/-- C2 (amended): for a valid candidate and a covering list all of whose
parseable entries have the candidate's address family, `is_network_covered`
returns without raising, reports the candidate covered iff some valid
entry's base address is ≤ the candidate's base and its last address is ≥
the candidate's last (`claim_covers`), and pairs `True` with the first
such entry in input order (`List.find?`); a parseable entry of the other
family instead aborts the check with a `TypeError`. -/
theorem is_network_covered_characterization (target : String) (tnet : IPNet)
    (ht : ip_network? target = some tnet) (covs : List String)
    (hsame : ∀ c ∈ covs, ∀ n, ip_network? c = some n → n.version = tnet.version) :
    is_network_covered target covs =
      Except.ok (match covs.find? (claim_covers tnet) with
        | some c => (true, some c)
        | none => (false, none)) ∧
    ((covs.find? (claim_covers tnet)).isSome ↔ ∃ c ∈ covs, claim_covers tnet c = true) := by
  constructor
  · unfold is_network_covered
    rw [ht]
    exact is_network_covered_loop_eq tnet covs hsame
  · simp [List.find?_isSome]

/-- C2 witness: the spec's own example — candidate `10.1.2.0/24` against
MS list `["10.0.0.0/8"]` is covered by the first (only) entry. -/
theorem is_network_covered_characterization_witness :
    is_network_covered "10.1.2.0/24" ["10.0.0.0/8"] = Except.ok (true, some "10.0.0.0/8") := by
  have h := is_network_covered_characterization "10.1.2.0/24" ⟨4, 167838208, 24⟩ rfl
    ["10.0.0.0/8"]
    (by
      intro c hc n hn
      simp only [List.mem_singleton] at hc
      subst hc
      have h8 : ip_network? "10.0.0.0/8" = some ⟨4, 167772160, 8⟩ := rfl
      rw [h8] at hn
      injection hn with h2
      rw [← h2])
  exact h.1.trans rfl

/-- C3 counterexample: the claim says a malformed candidate never makes
the containment check raise; but `is_network_covered` parses the candidate
outside any `try`, so it raises `ValueError`. -/
theorem is_network_covered_malformed_raises :
    is_network_covered "not-a-cidr" ["10.0.0.0/8"] = Except.error PyErr.valueError := rfl

/-- C3 (amended): a malformed (unparseable) candidate makes
`is_network_covered` raise `ValueError` for every covering list; only the
compatibility helper `is_subnet_of` treats a malformed candidate as not
covered (returns `False`) without raising.  In the full program the loader
validates every candidate before the check runs, so the raise is not
reachable from `main`. -/
theorem malformed_candidate_behavior (s : String) (hs : ip_network? s = none) :
    (∀ covs, is_network_covered s covs = Except.error PyErr.valueError) ∧
    (∀ t, is_subnet_of s t = Except.ok false) := by
  constructor
  · intro covs
    unfold is_network_covered
    rw [hs]
  · intro t
    unfold is_subnet_of
    rw [hs]

/-- C3 witness: the amended behavior at the concrete malformed candidate
`not-a-cidr`. -/
theorem malformed_candidate_behavior_witness :
    is_subnet_of "not-a-cidr" "10.0.0.0/8" = Except.ok false :=
  (malformed_candidate_behavior "not-a-cidr" rfl).2 "10.0.0.0/8"

theorem is_subnet_of_ok_true (A B : String) (h : is_subnet_of A B = Except.ok true) :
    ∃ a b, ip_network? A = some a ∧ ip_network? B = some b ∧ a.version = b.version ∧
      b.network_address ≤ a.network_address ∧ a.broadcast_address ≤ b.broadcast_address := by
  unfold is_subnet_of at h
  split at h
  · simp at h
  · rename_i a ha
    split at h
    · simp at h
    · rename_i b hb
      split at h
      · rename_i hv
        simp only [Except.ok.injEq, Bool.and_eq_true, decide_eq_true_eq] at h
        exact ⟨a, b, ha, hb, hv, h.1, h.2⟩
      · simp at h

/-- C6: the implemented containment comparison `is_subnet_of` is reflexive
on every valid prefix and transitive: two true comparisons force the three
prefixes to parse into the same family with nested bounds, and the bounds
compose. -/
theorem is_subnet_of_refl_trans (A B C : String) (hA : (ip_network? A).isSome = true) :
    is_subnet_of A A = Except.ok true ∧
    (is_subnet_of A B = Except.ok true → is_subnet_of B C = Except.ok true →
      is_subnet_of A C = Except.ok true) := by
  constructor
  · obtain ⟨a, ha⟩ := Option.isSome_iff_exists.mp hA
    simp [is_subnet_of, ha]
  · intro hab hbc
    obtain ⟨a, b, ha, hb, hvab, hn1, hb1⟩ := is_subnet_of_ok_true A B hab
    obtain ⟨b2, c, hb2, hc, hvbc, hn2, hb3⟩ := is_subnet_of_ok_true B C hbc
    have hbb : b2 = b := Option.some.inj (hb2.symm.trans hb)
    subst hbb
    unfold is_subnet_of
    rw [ha, hc]
    simp only [if_pos (hvab.trans hvbc), Except.ok.injEq, Bool.and_eq_true, decide_eq_true_eq]
    exact ⟨le_trans hn2 hn1, le_trans hb1 hb3⟩

/-- C6 witness: reflexivity at `10.0.0.0/24` and transitivity along
`10.0.0.0/24 ⊆ 10.0.0.0/16 ⊆ 10.0.0.0/8`. -/
theorem is_subnet_of_refl_trans_witness :
    is_subnet_of "10.0.0.0/24" "10.0.0.0/24" = Except.ok true ∧
    is_subnet_of "10.0.0.0/24" "10.0.0.0/8" = Except.ok true := by
  have h := is_subnet_of_refl_trans "10.0.0.0/24" "10.0.0.0/16" "10.0.0.0/8" rfl
  exact ⟨h.1, h.2 rfl rfl⟩

/-- C8: the loader returns exactly the per-line extracted valid prefixes
(`load_line`), in input order and count, never aborting on a bad line
(total function); on the claim's example the invalid middle line is the
only one skipped. -/
theorem read_cidrs_loader_spec :
    (∀ lines, read_cidrs_from_file (some lines) = lines.filterMap load_line) ∧
    read_cidrs_from_file (some ["10.0.0.0/8", "not-a-cidr", "192.168.1.0/24"]) =
      ["10.0.0.0/8", "192.168.1.0/24"] := by
  constructor
  · intro lines
    unfold read_cidrs_from_file
    exact (foldl_read_line lines []).trans (by simp)
  · rfl

/-- C9: a missing file loads as zero prefixes, and with the MS file
missing the downstream check reports every ER prefix uncovered; but when
the missing file is the ER file the report is not produced over zero ER
routes — the run instead dies in `write_log_file` with
`ZeroDivisionError` (the C1 defect), contradicting that part of the
claim. -/
theorem missing_file_run_behavior :
    read_cidrs_from_file none = [] ∧
    (cidr_main none (some ["10.0.0.0/8"])).map CheckResult.uncovered =
      Except.ok ["10.0.0.0/8"] ∧
    (cidr_main none (some ["10.0.0.0/8"])).map CheckResult.covered = Except.ok [] ∧
    cidr_main (some ["10.0.0.0/8"]) none = Except.error PyErr.zeroDivisionError :=
  ⟨rfl, rfl, rfl, rfl⟩

end CheckCidr

namespace ElasticFlow

/-- Written from the claim wording (C7): the subnets each wrapped in
double quotes and joined by ` OR ` in input order. -/
def quotedOrJoin : List String → String
  | [] => ""
  | [s] => "\"" ++ s ++ "\""
  | s :: rest => "\"" ++ s ++ "\"" ++ " OR " ++ quotedOrJoin rest

/-- The text query of the payload's `query_string` filter. -/
def payloadQueryText (p : Js) : Option String := do
  let q ← p.get? "query"
  let b ← q.get? "bool"
  let f ← b.get? "filter"
  match f with
  | .arr [_, qsObj] =>
    match (← qsObj.get? "query_string").get? "query" with
    | some (.str s) => some s
    | _ => none
  | _ => none

/-- The `(gte, lte)` bounds of the payload's `@timestamp` range filter. -/
def payloadTimeRange (p : Js) : Option (String × String) := do
  let q ← p.get? "query"
  let b ← q.get? "bool"
  let f ← b.get? "filter"
  match f with
  | .arr (rObj :: _) =>
    let ts ← (← rObj.get? "range").get? "@timestamp"
    match ts.get? "gte", ts.get? "lte" with
    | some (.str g), some (.str l) => some (g, l)
    | _, _ => none
  | _ => none

theorem py_join_quoted (subnets : List String) :
    py_join " OR " (subnets.map (fun subnet => "\"" ++ subnet ++ "\"")) =
      quotedOrJoin subnets := by
  induction subnets with
  | nil => rfl
  | cons s rest ih =>
    cases rest with
    | nil => rfl
    | cons t more =>
      simp only [List.map_cons, py_join, quotedOrJoin] at ih ⊢
      rw [ih, String.append_assoc]

/-- C7: for every subnet list and positive day count, the built payload's
`query_string` query is exactly the quoted, ` OR `-joined subnets in input
order, and its `@timestamp` range filter is the inclusive day-aligned
window from `now-{days}d/d` to `now/d`. -/
theorem build_payload_query_and_range (subnets : List String) (days size : Int)
    (_hdays : 0 < days) :
    payloadQueryText (build_payload subnets days size) = some (quotedOrJoin subnets) ∧
    payloadTimeRange (build_payload subnets days size) =
      some ("now-" ++ toString days ++ "d/d", "now/d") := by
  constructor
  · show some (py_join " OR " (subnets.map (fun subnet => "\"" ++ subnet ++ "\""))) = _
    rw [py_join_quoted]
  · rfl

/-- C7 witness: the spec's example, subnets
`["10.0.0.0/24", "10.0.1.0/24"]` and `days = 7`. -/
theorem build_payload_query_and_range_witness :
    payloadQueryText (build_payload ["10.0.0.0/24", "10.0.1.0/24"] 7 10000) =
      some "\"10.0.0.0/24\" OR \"10.0.1.0/24\"" ∧
    payloadTimeRange (build_payload ["10.0.0.0/24", "10.0.1.0/24"] 7 10000) =
      some ("now-7d/d", "now/d") := by
  have h := build_payload_query_and_range ["10.0.0.0/24", "10.0.1.0/24"] 7 10000 (by decide)
  exact ⟨h.1.trans rfl, h.2.trans rfl⟩

theorem printedPayload_eq (args : Args) (w : World) (p : Js)
    (h : (elasticMain args w).printedPayload = some p) :
    ∃ rows, w.inputFileRows = some rows ∧
      p = build_payload (load_subnets rows) args.days args.size := by
  by_cases hs : '*' ∈ args.index.data <;>
    cases ha : args.allow_wildcard <;>
      cases hu : pyTruthy args.username <;>
        cases hp : pyTruthy (effective_password args w) <;>
          cases hr : w.inputFileRows <;>
            cases h3 : args.dry_run <;>
              cases hc : args.confirm <;>
                cases h5 : confirm w.confirmReply <;>
                  cases hh : w.httpResult <;>
    simp [elasticMain, http_phase, hs, ha, hu, hp, hr, h3, hc, h5, hh] at h <;>
    exact ⟨_, rfl, h.symm⟩

theorem httpPayload_eq (args : Args) (w : World) (q : Js)
    (h : (elasticMain args w).httpPayload = some q) :
    ∃ rows, w.inputFileRows = some rows ∧
      q = build_payload (load_subnets rows) args.days args.size := by
  by_cases hs : '*' ∈ args.index.data <;>
    cases ha : args.allow_wildcard <;>
      cases hu : pyTruthy args.username <;>
        cases hp : pyTruthy (effective_password args w) <;>
          cases hr : w.inputFileRows <;>
            cases h3 : args.dry_run <;>
              cases hc : args.confirm <;>
                cases h5 : confirm w.confirmReply <;>
                  cases hh : w.httpResult <;>
    simp [elasticMain, http_phase, hs, ha, hu, hp, hr, h3, hc, h5, hh] at h <;>
    exact ⟨_, rfl, h.symm⟩

/-- C4: with a wildcard in the target index: when `--allow-wildcard` is
absent the run exits with status 2 and the HTTP request is never issued;
when `--allow-wildcard` is present but `--confirm` is absent and the user
declines the confirmation, the HTTP request is never issued and, whenever
the confirmation prompt was actually reached, the exit status is 0. -/
theorem wildcard_gate (args : Args) (w : World) (hstar : '*' ∈ args.index.data) :
    (args.allow_wildcard = false →
      (elasticMain args w).exitCode = 2 ∧ (elasticMain args w).httpIssued = false) ∧
    (args.allow_wildcard = true → args.confirm = false → confirm w.confirmReply = false →
      (elasticMain args w).httpIssued = false ∧
      ((elasticMain args w).confirmAsked = true → (elasticMain args w).exitCode = 0)) := by
  constructor
  · intro hna
    simp [elasticMain, hstar, hna]
  · intro ha hc h5
    cases hu : pyTruthy args.username <;>
      cases hp : pyTruthy (effective_password args w) <;>
        cases hr : w.inputFileRows <;>
          cases h3 : args.dry_run <;>
            simp [elasticMain, http_phase, hstar, ha, hc, h5, hu, hp, hr, h3]

/-- C4 witness: index `logs-*` without `--allow-wildcard` exits 2 with no
HTTP request. -/
theorem wildcard_gate_witness :
    (elasticMain
      { es_url := "https://es:9200", index := "logs-*", username := some "u",
        password := some "p", input := "subnets.csv", output := "out.csv", days := 14,
        size := 10000, insecure := false, allow_wildcard := false, dry_run := false,
        confirm := false }
      { getpassResult := "", confirmReply := some "n",
        inputFileRows := some [["10.0.0.0/24"]], httpResult := .ok [] true }).exitCode = 2 ∧
    (elasticMain
      { es_url := "https://es:9200", index := "logs-*", username := some "u",
        password := some "p", input := "subnets.csv", output := "out.csv", days := 14,
        size := 10000, insecure := false, allow_wildcard := false, dry_run := false,
        confirm := false }
      { getpassResult := "", confirmReply := some "n",
        inputFileRows := some [["10.0.0.0/24"]], httpResult := .ok [] true }).httpIssued =
      false :=
  (wildcard_gate _ _ (by decide)).1 rfl

/-- C5: with `--dry-run` the network layer is never invoked, the printed
payload is exactly `build_payload` applied to the loaded subnets, the day
count and the size, and it coincides with the payload the same arguments
and environment would submit without `--dry-run`. -/
theorem dry_run_behavior (args : Args) (w : World) (hd : args.dry_run = true) :
    (elasticMain args w).httpIssued = false ∧
    (∀ rows p, w.inputFileRows = some rows →
      (elasticMain args w).printedPayload = some p →
      p = build_payload (load_subnets rows) args.days args.size) ∧
    (∀ p q, (elasticMain args w).printedPayload = some p →
      (elasticMain { args with dry_run := false } w).httpPayload = some q → p = q) := by
  refine ⟨?_, ?_, ?_⟩
  · by_cases hs : '*' ∈ args.index.data <;>
      cases ha : args.allow_wildcard <;>
        cases hu : pyTruthy args.username <;>
          cases hp : pyTruthy (effective_password args w) <;>
            cases hr : w.inputFileRows <;>
              simp [elasticMain, hs, ha, hu, hp, hr, hd]
  · intro rows p hrows hp
    obtain ⟨rows2, hr2, he⟩ := printedPayload_eq args w p hp
    rw [hrows] at hr2
    injection hr2 with h2
    rw [he, h2]
  · intro p q hp hq
    obtain ⟨rows1, hr1, he1⟩ := printedPayload_eq args w p hp
    obtain ⟨rows2, hr2, he2⟩ := httpPayload_eq { args with dry_run := false } w q hq
    rw [hr1] at hr2
    injection hr2 with h2
    rw [he1, he2, h2]

/-- C5 witness: a concrete dry run issues no HTTP request. -/
theorem dry_run_behavior_witness :
    (elasticMain
      { es_url := "https://es:9200", index := "elastiflow", username := some "u",
        password := some "p", input := "subnets.csv", output := "out.csv", days := 7,
        size := 10000, insecure := false, allow_wildcard := false, dry_run := true,
        confirm := false }
      { getpassResult := "", confirmReply := some "y",
        inputFileRows := some [["10.0.0.0/24"], ["10.0.1.0/24"]],
        httpResult := .ok [] true }).httpIssued = false :=
  (dry_run_behavior _ _ rfl).1

/-- C10: even with `--dry-run`, missing credentials — a falsy username,
or a falsy resolved password after the interactive prompt — exit the run
with status 2 before any payload is built or printed, and no HTTP request
is made (the credential check precedes the dry-run branch). -/
theorem dry_run_requires_credentials (args : Args) (w : World) (_hd : args.dry_run = true)
    (hcred : pyTruthy args.username = false ∨ pyTruthy (effective_password args w) = false) :
    (elasticMain args w).exitCode = 2 ∧ (elasticMain args w).printedPayload = none ∧
    (elasticMain args w).httpIssued = false := by
  by_cases hs : '*' ∈ args.index.data <;>
    cases ha : args.allow_wildcard <;>
      rcases hcred with hcr | hcr <;>
        simp [elasticMain, hs, ha, hcr]

/-- C10 witness: a dry run with no username and no password exits 2 with
nothing printed and no HTTP request. -/
theorem dry_run_requires_credentials_witness :
    (elasticMain
      { es_url := "https://es:9200", index := "elastiflow", username := none,
        password := none, input := "subnets.csv", output := "out.csv", days := 7,
        size := 10000, insecure := false, allow_wildcard := false, dry_run := true,
        confirm := false }
      { getpassResult := "", confirmReply := some "y",
        inputFileRows := some [["10.0.0.0/24"]], httpResult := .ok [] true }).exitCode =
      2 := by
  have h := dry_run_requires_credentials
    { es_url := "https://es:9200", index := "elastiflow", username := none,
      password := none, input := "subnets.csv", output := "out.csv", days := 7,
      size := 10000, insecure := false, allow_wildcard := false, dry_run := true,
      confirm := false }
    { getpassResult := "", confirmReply := some "y",
      inputFileRows := some [["10.0.0.0/24"]], httpResult := .ok [] true }
    rfl (Or.inl rfl)
  exact h.1

end ElasticFlow
